import Mathlib

/-!
Verification of the AgenticLetters CLI (`agentic_letters.py`) against its
design specification.  The Python source is shallowly embedded: JSON values
become an inductive type, the dataclass `CLIError` becomes a structure,
`AgenticLettersClient._request`'s exception classification becomes a function
over an abstract HTTP outcome, `send_letter`'s filesystem preconditions become
a function over an abstract filesystem, and `load_api_key` becomes a function
over an abstract environment.  Python truthiness tests (`if self.code:`,
`if label:`, `if key:`) are modelled explicitly.
-/

/-- JSON values as produced by Python's `json.loads` (`null` is Python `None`).
Numbers are restricted to integers, which is all this program exchanges. -/
inductive Json where
  | null : Json
  | bool (b : Bool) : Json
  | num (n : Int) : Json
  | str (s : String) : Json
  | arr (xs : List Json) : Json
  | obj (fields : List (String × Json)) : Json

/-- First-occurrence association lookup, the dict lookup for parsed JSON
objects (keys are unique after `json.loads`). Returns the stored value, which
may be `Json.null`. -/
def jlookup : List (String × Json) → String → Option Json
  | [], _ => none
  | (k, v) :: rest, key => if k = key then some v else jlookup rest key

/-- Python `dict.get(key)` with no default: a stored JSON `null` is Python
`None`, indistinguishable from an absent key. -/
def dictGet (fields : List (String × Json)) (key : String) : Option Json :=
  match jlookup fields key with
  | some Json.null => none
  | some v => some v
  | none => none

/-- Python `dict.get(key, default)`: the stored value (even `null`) when the
key is present, the default otherwise. -/
def dictGetD (fields : List (String × Json)) (key : String) (dflt : Json) : Json :=
  match jlookup fields key with
  | some v => v
  | none => dflt

/-- Whether a parsed JSON object has a key (Python `"k" in d` /
`d.get(k)` presence at the dict level, before the null collapse). -/
def Json.hasKey (j : Json) (key : String) : Bool :=
  match j with
  | Json.obj fields => (jlookup fields key).isSome
  | _ => false

/-- Python truthiness of a JSON value (`None`, `False`, `0`, `""`, `[]`, `\x7b\x7d`
are falsy). -/
def Json.pyTruthy : Json → Bool
  | Json.null => false
  | Json.bool b => b
  | Json.num n => n != 0
  | Json.str s => !s.isEmpty
  | Json.arr xs => !xs.isEmpty
  | Json.obj fs => !fs.isEmpty

mutual

/-- Python `repr` of a JSON-shaped value, as `str()` falls back to it for
containers.  String escaping is elided: the program only ever formats string
messages with `str()`, where `pyStr` below bypasses `repr`. -/
def Json.pyRepr : Json → String
  | Json.null => "None"
  | Json.bool true => "True"
  | Json.bool false => "False"
  | Json.num n => toString n
  | Json.str s => "\x27" ++ s ++ "\x27"
  | Json.arr xs => "[" ++ String.intercalate ", " (Json.pyReprList xs) ++ "]"
  | Json.obj fs =>
      "\x7b" ++ String.intercalate ", " (Json.pyReprFields fs) ++ "\x7d"

/-- `repr` of each element of a JSON array. -/
def Json.pyReprList : List Json → List String
  | [] => []
  | x :: xs => x.pyRepr :: Json.pyReprList xs

/-- `repr` of each `key: value` entry of a JSON object. -/
def Json.pyReprFields : List (String × Json) → List String
  | [] => []
  | (k, v) :: fs => ("\x27" ++ k ++ "\x27: " ++ v.pyRepr) :: Json.pyReprFields fs

end

/-- Python `str()` of a JSON-shaped value: identity on strings, `repr`
otherwise (as in an f-string interpolation). -/
def Json.pyStr : Json → String
  | Json.str s => s
  | j => j.pyRepr

/-- `ErrorOrigin` enum from the source. -/
inductive ErrorOrigin where
  | LOCAL : ErrorOrigin
  | SERVER : ErrorOrigin
  | NETWORK : ErrorOrigin
deriving DecidableEq

/-- The `.value` attribute of the `ErrorOrigin` enum members. -/
def ErrorOrigin.value : ErrorOrigin → String
  | ErrorOrigin.LOCAL => "local"
  | ErrorOrigin.SERVER => "server"
  | ErrorOrigin.NETWORK => "network"

/-- The `CLIError` dataclass.  `message`, `code`, `detail` and `field` hold
whatever Python value the code stores there (normally strings, but
`error_body.get(...)` can surface arbitrary JSON), so they are `Json`. -/
structure CLIError where
  origin : ErrorOrigin
  message : Json
  code : Option Json := none
  detail : Option Json := none
  field : Option Json := none
  http_status : Option Nat := none

/-- Truthiness of an optional JSON-valued dataclass field. -/
def optTruthy : Option Json → Bool
  | none => false
  | some j => j.pyTruthy

/-- Truthiness of the optional integer `http_status` field. -/
def natTruthy : Option Nat → Bool
  | none => false
  | some n => n != 0

/-- `str()` of an optional field inside an f-string (`None` when absent). -/
def optPyStr : Option Json → String
  | none => "None"
  | some j => j.pyStr

/-- `str()` of the optional `http_status` inside an f-string. -/
def natPyStr : Option Nat → String
  | none => "None"
  | some n => toString n

/-- `CLIError.format`: the parts list built by the source's truthiness
chain, before joining with newlines. -/
def CLIError.formatParts (e : CLIError) : List String :=
  let parts := ["[" ++ e.origin.value ++ "] " ++ e.message.pyStr]
  let parts := if optTruthy e.code then parts ++ ["  code: " ++ optPyStr e.code] else parts
  let parts := if natTruthy e.http_status then parts ++ ["  http_status: " ++ natPyStr e.http_status] else parts
  let parts := if optTruthy e.detail then parts ++ ["  detail: " ++ optPyStr e.detail] else parts
  let parts := if optTruthy e.field then parts ++ ["  field: " ++ optPyStr e.field] else parts
  parts

/-- `CLIError.format` from the source: `"\n".join(parts)`. -/
def CLIError.format (e : CLIError) : String :=
  String.intercalate "\n" e.formatParts

/-- `die_local(message, detail=...)`: the `Local` error it constructs. -/
def localError (message : String) (detail : Option String := none) : CLIError :=
  { origin := ErrorOrigin.LOCAL
    message := Json.str message
    detail := detail.map Json.str }

/-!
## The request pipeline (`AgenticLettersClient._request`)

The outcome of `urllib.request.urlopen` is abstracted into `HttpOutcome`:
which exception (if any) the stdlib raised, and — for bodies — whether
`json.loads` succeeds and on what value.  `_request`'s `try/except` ladder
then classifies it.  An uncaught Python exception (traceback, no `CLIError`)
is a distinct result `ReqResult.crash`.
-/

/-- Constants from the source. -/
def API_BASE : String := "https://agentic-letters.com/api"

/-- `ENV_VAR` from the source. -/
def ENV_VAR : String := "AGENTIC_LETTERS_API_KEY"

/-- `ENV_FILE` from the source: `os.path.expanduser` of the fixed per-user
path, parametrised by the home directory. -/
def ENV_FILE (home : String) : String :=
  home ++ "/.openclaw/secrets/agentic_letters.env"

/-- What the network call produced, as seen by `_request`'s handlers:
a 2xx response (body parsed by `json.loads`, `none` when it is not JSON),
an `HTTPError` (status, reason phrase, body parsed if JSON), a `URLError`
(stringified reason), or a bare `TimeoutError`. -/
inductive HttpOutcome where
  | success (body : Option Json) : HttpOutcome
  | httpError (code : Nat) (reason : String) (body : Option Json) : HttpOutcome
  | urlError (reason : String) : HttpOutcome
  | timeout : HttpOutcome

/-- Result of `_request`: a parsed JSON body, a classified `CLIError` passed
to `die`, or an uncaught exception escaping the function. -/
inductive ReqResult where
  | ok (body : Json) : ReqResult
  | err (e : CLIError) : ReqResult
  | crash (exc : String) : ReqResult

/-- `_request`'s classification of the call outcome, line by line:
a 2xx non-JSON body makes `json.loads` raise out of the function; an
`HTTPError` whose body is not JSON dies with a `Server` error carrying the
status and reason; an `HTTPError` whose body is a JSON object dies with a
`Server` error built from `error_body.get(...)`; an `HTTPError` whose body is
JSON but not an object crashes with `AttributeError` at `error_body.get`;
`URLError` and `TimeoutError` die with `Network` errors. -/
def handle_response : HttpOutcome → ReqResult
  | HttpOutcome.success none => ReqResult.crash "json.decoder.JSONDecodeError"
  | HttpOutcome.success (some body) => ReqResult.ok body
  | HttpOutcome.httpError code reason none =>
      ReqResult.err
        { origin := ErrorOrigin.SERVER
          message := Json.str ("HTTP " ++ toString code ++ " with non-JSON response")
          http_status := some code
          detail := some (Json.str reason) }
  | HttpOutcome.httpError code _ (some (Json.obj fields)) =>
      ReqResult.err
        { origin := ErrorOrigin.SERVER
          message := dictGetD fields "error" (Json.str ("HTTP " ++ toString code))
          code := dictGet fields "code"
          http_status := some code
          detail := dictGet fields "detail"
          field := dictGet fields "field" }
  | HttpOutcome.httpError _ _ (some _) => ReqResult.crash "AttributeError"
  | HttpOutcome.urlError reason =>
      ReqResult.err
        { origin := ErrorOrigin.NETWORK
          message := Json.str "Could not reach the API"
          detail := some (Json.str reason) }
  | HttpOutcome.timeout =>
      ReqResult.err
        { origin := ErrorOrigin.NETWORK
          message := Json.str "Request timed out after 60 seconds" }

/-!
## `send_letter`

The filesystem is abstracted as a map from paths to a `FileModel` recording
what `Path.exists`, `Path.is_file` and `Path.read_bytes` observe.  The
function either dies locally (before any payload is built — the returned
`Except.error` carries no request, so no network call can follow) or yields
the method, path and JSON payload handed to `_request`.
-/

/-- What `Path.read_bytes` does: returns the bytes, raises `PermissionError`,
or raises another `OSError` with message `msg`. -/
inductive ReadResult where
  | ok (bytes : List Nat) : ReadResult
  | permissionError : ReadResult
  | osError (msg : String) : ReadResult

/-- What the filesystem answers for one path. -/
structure FileModel where
  pathExists : Bool
  pathIsFile : Bool
  readResult : ReadResult

/-- Arguments of `send_letter`, with the source's keyword defaults. -/
structure SendArgs where
  pdf_path : String
  name : String
  street : String
  zip_code : String
  city : String
  country : String := "DE"
  letter_type : String := "standard"
  label : Option String := none

/-- Truthiness of the optional `label` argument (`if label:`). -/
def labelTruthy : Option String → Bool
  | none => false
  | some s => !s.isEmpty

/-- Base64 alphabet, `base64.b64encode`'s character table. -/
def b64Chars : List Char :=
  "ABCDEFGHIJKLMNOPQRSTUVWXYZabcdefghijklmnopqrstuvwxyz0123456789+/".toList

/-- Character for one 6-bit group. -/
def b64Char (n : Nat) : Char := b64Chars.getD n "A".front

/-- `base64.b64encode(bytes).decode()`: standard base64 with `=` padding,
three input bytes to four output characters. -/
def base64Encode : List Nat → String
  | [] => ""
  | [a] =>
      let w := a % 256
      String.mk [b64Char (w / 4), b64Char (w % 4 * 16)] ++ "=="
  | [a, b] =>
      let w := a % 256 * 256 + b % 256
      String.mk [b64Char (w / 1024), b64Char (w / 16 % 64), b64Char (w % 16 * 4)] ++ "="
  | a :: b :: c :: rest =>
      let w := a % 256 * 65536 + b % 256 * 256 + c % 256
      String.mk [b64Char (w / 262144), b64Char (w / 4096 % 64),
                 b64Char (w / 64 % 64), b64Char (w % 64)] ++
        base64Encode rest

/-- The JSON payload `send_letter` assembles: `pdf`, `recipient`
(name/street/zip/city/country), `type`, and `label` appended only when the
`label` argument is truthy. -/
def buildPayload (pdf_b64 : String) (a : SendArgs) : Json :=
  let base : List (String × Json) :=
    [("pdf", Json.str pdf_b64),
     ("recipient", Json.obj
       [("name", Json.str a.name),
        ("street", Json.str a.street),
        ("zip", Json.str a.zip_code),
        ("city", Json.str a.city),
        ("country", Json.str a.country)]),
     ("type", Json.str a.letter_type)]
  if labelTruthy a.label then
    Json.obj (base ++ [("label", a.label.getD "" |> Json.str)])
  else
    Json.obj base

/-- The request `send_letter` hands to `_request`: method, path, body. -/
structure OutRequest where
  method : String
  path : String
  body : Json

/-- `send_letter` up to the `_request` call: checks `exists`, `is_file`,
reads the bytes (catching `PermissionError` and `OSError`), base64-encodes,
assembles the payload, and produces the `POST /letters` request.  A
precondition failure dies locally before any encoding or request is built,
so an `Except.error` result entails that no network call happens. -/
def send_letter (fs : String → FileModel) (a : SendArgs) : Except CLIError OutRequest :=
  let f := fs a.pdf_path
  if !f.pathExists then
    Except.error (localError ("File not found: " ++ a.pdf_path))
  else if !f.pathIsFile then
    Except.error (localError ("Not a file: " ++ a.pdf_path))
  else
    match f.readResult with
    | ReadResult.permissionError =>
        Except.error (localError ("Permission denied: " ++ a.pdf_path))
    | ReadResult.osError msg =>
        Except.error (localError ("Cannot read file: " ++ a.pdf_path) (some msg))
    | ReadResult.ok bytes =>
        Except.ok
          { method := "POST", path := "/letters"
            body := buildPayload (base64Encode bytes) a }

/-!
## `load_api_key`
-/

/-- The environment `load_api_key` consults: `os.environ.get(ENV_VAR)` and
the secrets file (`none` when `Path.exists()` is false, otherwise
`read_text().splitlines()`). -/
structure KeyEnv where
  envVar : Option String
  secretsFile : Option (List String)

/-- Python's whitespace set for `str.strip()` with no argument. -/
def pyWhitespace : List Char := [' ', '\t', '\n', '\r', '\x0b', '\x0c']

/-- Python `str.strip(chars)`: remove leading and trailing characters drawn
from the set, as long as they match. -/
def pyStripChars (set : List Char) (s : String) : String :=
  String.mk ((((s.toList.dropWhile (set.contains ·)).reverse.dropWhile
    (set.contains ·)).reverse))

/-- Python `str.strip()` (whitespace). -/
def pyStrip (s : String) : String := pyStripChars pyWhitespace s

/-- Python `line.split(sep, 1)[1]` for a one-character separator that is
known to occur: everything after its first occurrence. -/
def afterFirst (sep : Char) : List Char → List Char
  | [] => []
  | c :: rest => if c = sep then rest else afterFirst sep rest

/-- One secrets-file line as `load_api_key`'s loop handles it: strip it,
require the `AGENTIC_LETTERS_API_KEY=` prefix, take everything after the
first `=`, strip whitespace then double then single quotes, and accept the
value only if non-empty. -/
def parseKeyLine (line : String) : Option String :=
  let l := pyStrip line
  if (ENV_VAR ++ "=").toList.isPrefixOf l.toList then
    let val := pyStripChars ['\x27']
      (pyStripChars ['"'] (pyStrip (String.mk (afterFirst '=' l.toList))))
    if !val.isEmpty then some val else none
  else none

/-- The `for line in ...` loop: first line yielding a non-empty value wins. -/
def scanLines : List String → Option String
  | [] => none
  | l :: ls =>
      match parseKeyLine l with
      | some v => some v
      | none => scanLines ls

/-- The `Local` error `load_api_key` dies with when no key is found. -/
def noKeyError (home : String) : CLIError :=
  localError "No API key found"
    (some ("Set " ++ ENV_VAR ++ " in environment or in " ++ ENV_FILE home ++
           ". Get a key at https://agentic-letters.com/buy"))

/-- `load_api_key`: a truthy environment variable wins (stripped); otherwise
the secrets file is scanned when it exists; otherwise a `Local` error naming
both locations and the signup URL. -/
def load_api_key (home : String) (env : KeyEnv) : Except CLIError String :=
  match env.envVar with
  | some key =>
      if !key.isEmpty then Except.ok (pyStrip key)
      else
        match env.secretsFile with
        | some lines =>
            match scanLines lines with
            | some v => Except.ok v
            | none => Except.error (noKeyError home)
        | none => Except.error (noKeyError home)
  | none =>
      match env.secretsFile with
      | some lines =>
          match scanLines lines with
          | some v => Except.ok v
          | none => Except.error (noKeyError home)
      | none => Except.error (noKeyError home)

/-!
## `main`: printing and exit codes
-/

/-- Lower-case hex digit. -/
def hexDigit (n : Nat) : Char := "0123456789abcdef".toList.getD n "0".front

/-- One character of `json.dumps` string output (`ensure_ascii=False`):
escape backslash, quote and control characters, pass everything else. -/
def jsonEscapeChar (c : Char) : String :=
  if c = '"' then "\\\""
  else if c = '\\' then "\\\\"
  else if c = '\n' then "\\n"
  else if c = '\t' then "\\t"
  else if c = '\r' then "\\r"
  else if c = '\x08' then "\\b"
  else if c = '\x0c' then "\\f"
  else if c.toNat < 32 then
    "\\u00" ++ String.mk [hexDigit (c.toNat / 16), hexDigit (c.toNat % 16)]
  else String.mk [c]

/-- `json.dumps` of a string. -/
def jsonQuote (s : String) : String :=
  "\"" ++ String.join (s.toList.map jsonEscapeChar) ++ "\""

/-- `n` spaces. -/
def spaces (n : Nat) : String := String.mk (List.replicate n " ".front)

mutual

/-- `json.dumps(v, indent=2, ensure_ascii=False)` at nesting level `lvl`
(the top-level call in `main` uses `lvl = 0`).  With an indent the item
separator is `\",\n\"` and the key separator `\": \"`. -/
def jsonDumps (lvl : Nat) : Json → String
  | Json.null => "null"
  | Json.bool true => "true"
  | Json.bool false => "false"
  | Json.num n => toString n
  | Json.str s => jsonQuote s
  | Json.arr [] => "[]"
  | Json.arr (x :: xs) =>
      "[\n" ++ String.intercalate ",\n" (jsonDumpsItems lvl (x :: xs)) ++
        "\n" ++ spaces (2 * lvl) ++ "]"
  | Json.obj [] => "\x7b\x7d"
  | Json.obj (f :: fs) =>
      "\x7b\n" ++ String.intercalate ",\n" (jsonDumpsEntries lvl (f :: fs)) ++
        "\n" ++ spaces (2 * lvl) ++ "\x7d"

/-- Array items, each indented one level deeper. -/
def jsonDumpsItems (lvl : Nat) : List Json → List String
  | [] => []
  | x :: xs =>
      (spaces (2 * (lvl + 1)) ++ jsonDumps (lvl + 1) x) :: jsonDumpsItems lvl xs

/-- Object entries, `"key": value`, each indented one level deeper. -/
def jsonDumpsEntries (lvl : Nat) : List (String × Json) → List String
  | [] => []
  | (k, v) :: fs =>
      (spaces (2 * (lvl + 1)) ++ jsonQuote k ++ ": " ++ jsonDumps (lvl + 1) v) ::
        jsonDumpsEntries lvl fs

end

/-- How one process invocation ends: normal exit printing the result to
stdout (exit code 0), `die` printing a formatted `CLIError` to stderr
(exit code 1), or an uncaught exception (traceback). -/
inductive ProcOutcome where
  | exit0 (stdoutText : String) : ProcOutcome
  | exit1 (stderrText : String) : ProcOutcome
  | crashed (exc : String) : ProcOutcome

/-- The tail of `main` shared by all four commands: the `_request` result is
either printed as indented JSON (then the process returns, exit 0) or was
already passed to `die` (exit 1), or an exception escaped. -/
def finishRequest : ReqResult → ProcOutcome
  | ReqResult.ok j => ProcOutcome.exit0 (jsonDumps 0 j)
  | ReqResult.err e => ProcOutcome.exit1 e.format
  | ReqResult.crash s => ProcOutcome.crashed s

/-- `main` for the `send` command: resolve the key, run `send_letter`
(local checks, then the request), classify the network outcome, print. -/
def mainSend (home : String) (env : KeyEnv) (fs : String → FileModel)
    (a : SendArgs) (net : HttpOutcome) : ProcOutcome :=
  match load_api_key home env with
  | Except.error e => ProcOutcome.exit1 e.format
  | Except.ok _ =>
      match send_letter fs a with
      | Except.error e => ProcOutcome.exit1 e.format
      | Except.ok _ => finishRequest (handle_response net)

/-- `main` for the `status` command (`GET /letters/{id}`). -/
def mainStatus (home : String) (env : KeyEnv) (net : HttpOutcome) : ProcOutcome :=
  match load_api_key home env with
  | Except.error e => ProcOutcome.exit1 e.format
  | Except.ok _ => finishRequest (handle_response net)

/-- `main` for the `list` command (`GET /letters`). -/
def mainList (home : String) (env : KeyEnv) (net : HttpOutcome) : ProcOutcome :=
  match load_api_key home env with
  | Except.error e => ProcOutcome.exit1 e.format
  | Except.ok _ => finishRequest (handle_response net)

/-- `main` for the `credits` command (`GET /credits`). -/
def mainCredits (home : String) (env : KeyEnv) (net : HttpOutcome) : ProcOutcome :=
  match load_api_key home env with
  | Except.error e => ProcOutcome.exit1 e.format
  | Except.ok _ => finishRequest (handle_response net)

/-- The indented optional lines of the rendered error block, in source
order: `code`, `http_status`, `detail`, `field`, kept only when truthy. -/
def optFieldLines (e : CLIError) : List String :=
  (if optTruthy e.code then ["  code: " ++ optPyStr e.code] else []) ++
  (if natTruthy e.http_status then ["  http_status: " ++ natPyStr e.http_status] else []) ++
  (if optTruthy e.detail then ["  detail: " ++ optPyStr e.detail] else []) ++
  (if optTruthy e.field then ["  field: " ++ optPyStr e.field] else [])

/-- The parts list is the `[origin] message` header followed by exactly the
truthy optional fields. -/
lemma formatParts_eq (e : CLIError) :
    e.formatParts =
      ("[" ++ e.origin.value ++ "] " ++ e.message.pyStr) :: optFieldLines e := by
  unfold CLIError.formatParts optFieldLines
  split <;> split <;> split <;> split <;> simp

/-!
## Claims
-/

/-- Claim C3: an unreachable host (`URLError`) yields a `Network` error with
no `http_status` (and no `code`/`field`), and a 60-second timeout
(`TimeoutError`) yields a `Network` error whose message indicates the
timeout — both branches classify as origin `Network`, never `Server`. -/
theorem claim_C3 :
    ∀ reason : String,
      handle_response (HttpOutcome.urlError reason) =
        ReqResult.err
          { origin := ErrorOrigin.NETWORK
            message := Json.str "Could not reach the API"
            code := none
            detail := some (Json.str reason)
            field := none
            http_status := none } ∧
      handle_response HttpOutcome.timeout =
        ReqResult.err
          { origin := ErrorOrigin.NETWORK
            message := Json.str "Request timed out after 60 seconds"
            code := none
            detail := none
            field := none
            http_status := none } := by
  intro reason
  exact ⟨rfl, rfl⟩

/-- Claim C4: an HTTP error response whose body is not JSON yields a
`Server` error with `http_status` equal to the status code, `detail` equal
to the reason phrase, and no `code`/`field`; in particular a simulated HTTP
500 carries `http_status = 500` and the reason phrase as detail. -/
theorem claim_C4 :
    ∀ (code : Nat) (reason : String),
      handle_response (HttpOutcome.httpError code reason none) =
        ReqResult.err
          { origin := ErrorOrigin.SERVER
            message := Json.str ("HTTP " ++ toString code ++ " with non-JSON response")
            code := none
            detail := some (Json.str reason)
            field := none
            http_status := some code } ∧
      handle_response (HttpOutcome.httpError 500 "Internal Server Error" none) =
        ReqResult.err
          { origin := ErrorOrigin.SERVER
            message := Json.str "HTTP 500 with non-JSON response"
            code := none
            detail := some (Json.str "Internal Server Error")
            field := none
            http_status := some 500 } := by
  intro code reason
  exact ⟨rfl, rfl⟩

/-- Claim C2, counterexample: a body that parses as JSON but is not a JSON
object (here the JSON array `[]`) does not produce a `Server` error at all —
`error_body.get` raises an uncaught `AttributeError`, so the claim's
universal statement over all JSON bodies is false. -/
theorem claim_C2_counterexample :
    handle_response (HttpOutcome.httpError 422 "Unprocessable Entity" (some (Json.arr []))) =
      ReqResult.crash "AttributeError" :=
  rfl

/-- Claim C2 as amended: for every HTTP error response whose body parses as
a JSON **object** with an `error` field, the result is a `Server` error whose
message is that field, whose `http_status` is the status code, and whose
`code`, `detail` and `field` are the body's corresponding fields (a JSON
`null` field is Python `None`, i.e. absent); in particular the simulated 422
with body `\x7b"error":"invalid zip","field":"zip"\x7d` yields message
"invalid zip", `http_status = 422`, `field = "zip"`. -/
theorem claim_C2_amended :
    ∀ (code : Nat) (reason : String) (fields : List (String × Json)) (m : Json),
      jlookup fields "error" = some m →
      handle_response (HttpOutcome.httpError code reason (some (Json.obj fields))) =
        ReqResult.err
          { origin := ErrorOrigin.SERVER
            message := m
            code := dictGet fields "code"
            detail := dictGet fields "detail"
            field := dictGet fields "field"
            http_status := some code } ∧
      handle_response (HttpOutcome.httpError 422 "Unprocessable Entity"
          (some (Json.obj [("error", Json.str "invalid zip"), ("field", Json.str "zip")]))) =
        ReqResult.err
          { origin := ErrorOrigin.SERVER
            message := Json.str "invalid zip"
            code := none
            detail := none
            field := some (Json.str "zip")
            http_status := some 422 } := by
  intro code reason fields m h
  refine ⟨?_, rfl⟩
  simp only [handle_response, dictGetD, h]

/-- Claim C2 amended, witness: the amended theorem applied to the simulated
HTTP 422 with body `\x7b"error":"invalid zip","field":"zip"\x7d`. -/
theorem claim_C2_amended_witness :
    handle_response (HttpOutcome.httpError 422 "Unprocessable Entity"
        (some (Json.obj [("error", Json.str "invalid zip"), ("field", Json.str "zip")]))) =
      ReqResult.err
        { origin := ErrorOrigin.SERVER
          message := Json.str "invalid zip"
          code := none
          detail := none
          field := some (Json.str "zip")
          http_status := some 422 } :=
  (claim_C2_amended 422 "Unprocessable Entity"
    [("error", Json.str "invalid zip"), ("field", Json.str "zip")]
    (Json.str "invalid zip") rfl).1

/-- Claim C10, counterexample: a body that parses as JSON and contains no
`error` key need not yield the fallback message — a non-object JSON body
(here the number `7`) crashes with an uncaught `AttributeError` instead of
producing any `Server` error. -/
theorem claim_C10_counterexample :
    handle_response (HttpOutcome.httpError 422 "Unprocessable Entity" (some (Json.num 7))) =
      ReqResult.crash "AttributeError" :=
  rfl

/-- Claim C10 as amended: for every HTTP error response whose body parses as
a JSON **object** with no `error` key, the `Server` error's message is the
fallback `"HTTP <status code>"` (e.g. `"HTTP 422"`), while `code`, `detail`
and `field` are exactly the body's corresponding fields — absent when the
body omits them (or holds JSON `null`, which Python's `dict.get` cannot
distinguish from absence). -/
theorem claim_C10_amended :
    ∀ (code : Nat) (reason : String) (fields : List (String × Json)),
      jlookup fields "error" = none →
      handle_response (HttpOutcome.httpError code reason (some (Json.obj fields))) =
        ReqResult.err
          { origin := ErrorOrigin.SERVER
            message := Json.str ("HTTP " ++ toString code)
            code := dictGet fields "code"
            detail := dictGet fields "detail"
            field := dictGet fields "field"
            http_status := some code } ∧
      handle_response (HttpOutcome.httpError 422 "Unprocessable Entity"
          (some (Json.obj [("detail", Json.str "zip must be 5 digits")]))) =
        ReqResult.err
          { origin := ErrorOrigin.SERVER
            message := Json.str "HTTP 422"
            code := none
            detail := some (Json.str "zip must be 5 digits")
            field := none
            http_status := some 422 } := by
  intro code reason fields h
  refine ⟨?_, rfl⟩
  simp only [handle_response, dictGetD, h]

/-- Claim C10 amended, witness: the amended theorem applied to a 422 whose
JSON object body has only a `detail` field. -/
theorem claim_C10_amended_witness :
    handle_response (HttpOutcome.httpError 422 "Unprocessable Entity"
        (some (Json.obj [("detail", Json.str "zip must be 5 digits")]))) =
      ReqResult.err
        { origin := ErrorOrigin.SERVER
          message := Json.str "HTTP 422"
          code := none
          detail := some (Json.str "zip must be 5 digits")
          field := none
          http_status := some 422 } :=
  (claim_C10_amended 422 "Unprocessable Entity"
    [("detail", Json.str "zip must be 5 digits")] rfl).1

/-- Branch lemma: missing document. -/
lemma send_letter_not_found (fs : String → FileModel) (a : SendArgs)
    (h : (fs a.pdf_path).pathExists = false) :
    send_letter fs a = Except.error (localError ("File not found: " ++ a.pdf_path)) := by
  unfold send_letter
  simp [h]

/-- Branch lemma: path exists but is not a regular file. -/
lemma send_letter_not_file (fs : String → FileModel) (a : SendArgs)
    (h1 : (fs a.pdf_path).pathExists = true) (h2 : (fs a.pdf_path).pathIsFile = false) :
    send_letter fs a = Except.error (localError ("Not a file: " ++ a.pdf_path)) := by
  unfold send_letter
  simp [h1, h2]

/-- Branch lemma: `read_bytes` raises `PermissionError`. -/
lemma send_letter_permission (fs : String → FileModel) (a : SendArgs)
    (h1 : (fs a.pdf_path).pathExists = true) (h2 : (fs a.pdf_path).pathIsFile = true)
    (h3 : (fs a.pdf_path).readResult = ReadResult.permissionError) :
    send_letter fs a = Except.error (localError ("Permission denied: " ++ a.pdf_path)) := by
  unfold send_letter
  simp [h1, h2, h3]

/-- Branch lemma: `read_bytes` raises a generic `OSError`. -/
lemma send_letter_os_error (fs : String → FileModel) (a : SendArgs) (m : String)
    (h1 : (fs a.pdf_path).pathExists = true) (h2 : (fs a.pdf_path).pathIsFile = true)
    (h3 : (fs a.pdf_path).readResult = ReadResult.osError m) :
    send_letter fs a =
      Except.error (localError ("Cannot read file: " ++ a.pdf_path) (some m)) := by
  unfold send_letter
  simp [h1, h2, h3]

/-- Branch lemma: all preconditions hold, the request is produced. -/
lemma send_letter_success (fs : String → FileModel) (a : SendArgs) (bytes : List Nat)
    (h1 : (fs a.pdf_path).pathExists = true) (h2 : (fs a.pdf_path).pathIsFile = true)
    (h3 : (fs a.pdf_path).readResult = ReadResult.ok bytes) :
    send_letter fs a =
      Except.ok
        { method := "POST", path := "/letters"
          body := buildPayload (base64Encode bytes) a } := by
  unfold send_letter
  simp [h1, h2, h3]

/-- The not-a-file message differs from the not-found message for every
path (the two prefixes have different lengths). -/
lemma notAFile_ne_notFound (p : String) :
    ("Not a file: " ++ p) ≠ ("File not found: " ++ p) := by
  intro h
  have hl := congrArg String.length h
  rw [String.length_append, String.length_append] at hl
  have h1 : ("Not a file: ").length = 12 := rfl
  have h2 : ("File not found: ").length = 16 := rfl
  rw [h1, h2] at hl
  omega

/-- Claim C1: a send invocation whose document is missing, not a regular
file, or unreadable produces a `Local` error before any request is built
(so no base64 encoding of the document and no network call happens — an
`Except.error` result carries no request), the error carries no
`code`/`field`/`http_status`, its message identifies the violated
precondition (not-found / not-a-file / permission-denied / generic read
error with the OS detail attached), and the not-a-file message is distinct
from the not-found message. -/
theorem claim_C1 :
    ∀ (fs : String → FileModel) (a : SendArgs),
      ((fs a.pdf_path).pathExists = false ∨ (fs a.pdf_path).pathIsFile = false ∨
        (fs a.pdf_path).readResult = ReadResult.permissionError ∨
        (∃ m, (fs a.pdf_path).readResult = ReadResult.osError m)) →
      (∀ r, send_letter fs a ≠ Except.ok r) ∧
      ∃ e, send_letter fs a = Except.error e ∧
        e.origin = ErrorOrigin.LOCAL ∧ e.code = none ∧ e.field = none ∧
        e.http_status = none ∧
        ((fs a.pdf_path).pathExists = false →
          e.message = Json.str ("File not found: " ++ a.pdf_path)) ∧
        ((fs a.pdf_path).pathExists = true → (fs a.pdf_path).pathIsFile = false →
          e.message = Json.str ("Not a file: " ++ a.pdf_path)) ∧
        ((fs a.pdf_path).pathExists = true → (fs a.pdf_path).pathIsFile = true →
          (fs a.pdf_path).readResult = ReadResult.permissionError →
          e.message = Json.str ("Permission denied: " ++ a.pdf_path)) ∧
        (∀ m, (fs a.pdf_path).pathExists = true → (fs a.pdf_path).pathIsFile = true →
          (fs a.pdf_path).readResult = ReadResult.osError m →
          e.message = Json.str ("Cannot read file: " ++ a.pdf_path) ∧
            e.detail = some (Json.str m)) ∧
        ("Not a file: " ++ a.pdf_path) ≠ ("File not found: " ++ a.pdf_path) := by
  intro fs a h
  have noOk : ∀ (e : CLIError), send_letter fs a = Except.error e →
      ∀ r, send_letter fs a ≠ Except.ok r := by
    intro e he r hr
    rw [he] at hr
    exact Except.noConfusion hr
  cases hE : (fs a.pdf_path).pathExists with
  | false =>
    have hs := send_letter_not_found fs a hE
    refine ⟨noOk _ hs, localError ("File not found: " ++ a.pdf_path), hs, rfl, rfl, rfl, rfl,
      fun _ => rfl,
      fun hT _ => Bool.noConfusion hT,
      fun hT _ _ => Bool.noConfusion hT,
      fun m hT _ _ => Bool.noConfusion hT,
      notAFile_ne_notFound a.pdf_path⟩
  | true =>
    cases hF : (fs a.pdf_path).pathIsFile with
    | false =>
      have hs := send_letter_not_file fs a hE hF
      refine ⟨noOk _ hs, localError ("Not a file: " ++ a.pdf_path), hs, rfl, rfl, rfl, rfl,
        fun hmiss => Bool.noConfusion hmiss,
        fun _ _ => rfl,
        fun _ hTf _ => Bool.noConfusion hTf,
        fun m _ hTf _ => Bool.noConfusion hTf,
        notAFile_ne_notFound a.pdf_path⟩
    | true =>
      cases hR : (fs a.pdf_path).readResult with
      | ok bytes =>
        exfalso
        rcases h with h | h | h | ⟨m, h⟩
        · rw [hE] at h; exact Bool.noConfusion h
        · rw [hF] at h; exact Bool.noConfusion h
        · rw [hR] at h; exact ReadResult.noConfusion h
        · rw [hR] at h; exact ReadResult.noConfusion h
      | permissionError =>
        have hs := send_letter_permission fs a hE hF hR
        refine ⟨noOk _ hs, localError ("Permission denied: " ++ a.pdf_path), hs, rfl, rfl, rfl,
          rfl,
          fun hmiss => Bool.noConfusion hmiss,
          fun _ hTf => Bool.noConfusion hTf,
          fun _ _ _ => rfl,
          fun m _ _ hm => ReadResult.noConfusion hm,
          notAFile_ne_notFound a.pdf_path⟩
      | osError m =>
        have hs := send_letter_os_error fs a m hE hF hR
        refine ⟨noOk _ hs, localError ("Cannot read file: " ++ a.pdf_path) (some m), hs, rfl,
          rfl, rfl, rfl,
          fun hmiss => Bool.noConfusion hmiss,
          fun _ hTf => Bool.noConfusion hTf,
          fun _ _ hp => ReadResult.noConfusion hp,
          fun m2 _ _ hm => by
            injection hm with hmm
            subst hmm
            exact ⟨rfl, rfl⟩,
          notAFile_ne_notFound a.pdf_path⟩

/-- Filesystem in which every path is absent (used to instantiate claims). -/
def missingFS : String → FileModel :=
  fun _ => { pathExists := false, pathIsFile := false, readResult := ReadResult.ok [] }

/-- Concrete send arguments targeting a missing document. -/
def missingArgs : SendArgs :=
  { pdf_path := "missing.pdf", name := "Ada", street := "Main St 1",
    zip_code := "10115", city := "Berlin" }

/-- Claim C1, witness: the theorem applied to a filesystem where the
document path does not exist. -/
theorem claim_C1_witness :
    (missingFS missingArgs.pdf_path).pathExists = false ∧
    ((∀ r, send_letter missingFS missingArgs ≠ Except.ok r) ∧
      ∃ e, send_letter missingFS missingArgs = Except.error e ∧
        e.origin = ErrorOrigin.LOCAL ∧ e.code = none ∧ e.field = none ∧
        e.http_status = none ∧
        ((missingFS missingArgs.pdf_path).pathExists = false →
          e.message = Json.str ("File not found: " ++ missingArgs.pdf_path)) ∧
        ((missingFS missingArgs.pdf_path).pathExists = true →
          (missingFS missingArgs.pdf_path).pathIsFile = false →
          e.message = Json.str ("Not a file: " ++ missingArgs.pdf_path)) ∧
        ((missingFS missingArgs.pdf_path).pathExists = true →
          (missingFS missingArgs.pdf_path).pathIsFile = true →
          (missingFS missingArgs.pdf_path).readResult = ReadResult.permissionError →
          e.message = Json.str ("Permission denied: " ++ missingArgs.pdf_path)) ∧
        (∀ m, (missingFS missingArgs.pdf_path).pathExists = true →
          (missingFS missingArgs.pdf_path).pathIsFile = true →
          (missingFS missingArgs.pdf_path).readResult = ReadResult.osError m →
          e.message = Json.str ("Cannot read file: " ++ missingArgs.pdf_path) ∧
            e.detail = some (Json.str m)) ∧
        ("Not a file: " ++ missingArgs.pdf_path) ≠ ("File not found: " ++ missingArgs.pdf_path)) :=
  ⟨rfl, claim_C1 missingFS missingArgs (Or.inl rfl)⟩

/-- Claim C5: when the document preconditions hold, the request is a POST
to `/letters` whose body is `pdf` (base64 of the document bytes),
`recipient` (name, street, zip, city, country), `type`, extended with
`label` exactly when the label is truthy; and arguments built without
`country`/`type`/`label` default to `"DE"`, `"standard"` and no label. -/
theorem claim_C5 :
    (∀ (fs : String → FileModel) (a : SendArgs) (bytes : List Nat),
      (fs a.pdf_path).pathExists = true →
      (fs a.pdf_path).pathIsFile = true →
      (fs a.pdf_path).readResult = ReadResult.ok bytes →
      send_letter fs a = Except.ok
        { method := "POST", path := "/letters"
          body :=
            if labelTruthy a.label then
              Json.obj
                [("pdf", Json.str (base64Encode bytes)),
                 ("recipient", Json.obj
                   [("name", Json.str a.name), ("street", Json.str a.street),
                    ("zip", Json.str a.zip_code), ("city", Json.str a.city),
                    ("country", Json.str a.country)]),
                 ("type", Json.str a.letter_type),
                 ("label", Json.str (a.label.getD ""))]
            else
              Json.obj
                [("pdf", Json.str (base64Encode bytes)),
                 ("recipient", Json.obj
                   [("name", Json.str a.name), ("street", Json.str a.street),
                    ("zip", Json.str a.zip_code), ("city", Json.str a.city),
                    ("country", Json.str a.country)]),
                 ("type", Json.str a.letter_type)] }) ∧
    (∀ p n st z c,
      ({ pdf_path := p, name := n, street := st, zip_code := z, city := c } : SendArgs).country
          = "DE" ∧
      ({ pdf_path := p, name := n, street := st, zip_code := z, city := c } : SendArgs).letter_type
          = "standard" ∧
      ({ pdf_path := p, name := n, street := st, zip_code := z, city := c } : SendArgs).label
          = none) := by
  constructor
  · intro fs a bytes h1 h2 h3
    rw [send_letter_success fs a bytes h1 h2 h3]
    unfold buildPayload
    cases h : labelTruthy a.label <;> simp [h]
  · intro p n st z c
    exact ⟨rfl, rfl, rfl⟩

/-- Filesystem in which every path is a readable regular file with the
three bytes `01 02 03`. -/
def presentFS : String → FileModel :=
  fun _ => { pathExists := true, pathIsFile := true, readResult := ReadResult.ok [1, 2, 3] }

/-- Concrete send arguments using the defaults (no label). -/
def defaultArgs : SendArgs :=
  { pdf_path := "letter.pdf", name := "Ada", street := "Main St 1",
    zip_code := "10115", city := "Berlin" }

/-- Claim C5, witness: the theorem applied to a readable three-byte file
with all-default optional arguments. -/
theorem claim_C5_witness :
    (presentFS defaultArgs.pdf_path).pathExists = true ∧
    (presentFS defaultArgs.pdf_path).pathIsFile = true ∧
    (presentFS defaultArgs.pdf_path).readResult = ReadResult.ok [1, 2, 3] ∧
    send_letter presentFS defaultArgs = Except.ok
      { method := "POST", path := "/letters"
        body :=
          if labelTruthy defaultArgs.label then
            Json.obj
              [("pdf", Json.str (base64Encode [1, 2, 3])),
               ("recipient", Json.obj
                 [("name", Json.str defaultArgs.name),
                  ("street", Json.str defaultArgs.street),
                  ("zip", Json.str defaultArgs.zip_code),
                  ("city", Json.str defaultArgs.city),
                  ("country", Json.str defaultArgs.country)]),
               ("type", Json.str defaultArgs.letter_type),
               ("label", Json.str (defaultArgs.label.getD ""))]
          else
            Json.obj
              [("pdf", Json.str (base64Encode [1, 2, 3])),
               ("recipient", Json.obj
                 [("name", Json.str defaultArgs.name),
                  ("street", Json.str defaultArgs.street),
                  ("zip", Json.str defaultArgs.zip_code),
                  ("city", Json.str defaultArgs.city),
                  ("country", Json.str defaultArgs.country)]),
               ("type", Json.str defaultArgs.letter_type)] } :=
  ⟨rfl, rfl, rfl, claim_C5.1 presentFS defaultArgs [1, 2, 3] rfl rfl rfl⟩

/-- The payload carries the `label` key exactly when the label argument is
truthy. -/
lemma hasKey_buildPayload (b64 : String) (a : SendArgs) :
    (buildPayload b64 a).hasKey "label" = labelTruthy a.label := by
  unfold buildPayload
  cases h : labelTruthy a.label <;> rfl

/-- Claim C6: for every send invocation that builds a request, the payload
contains the key `label` iff the supplied label is a non-empty string; in
particular `label = None` yields a payload without the key. -/
theorem claim_C6 :
    ∀ (fs : String → FileModel) (a : SendArgs) (r : OutRequest),
      send_letter fs a = Except.ok r →
      ((r.body.hasKey "label" = true) ↔ ∃ l, a.label = some l ∧ l ≠ "") ∧
      (a.label = none → r.body.hasKey "label" = false) := by
  intro fs a r h
  cases hE : (fs a.pdf_path).pathExists with
  | false =>
    rw [send_letter_not_found fs a hE] at h
    exact Except.noConfusion h
  | true =>
    cases hF : (fs a.pdf_path).pathIsFile with
    | false =>
      rw [send_letter_not_file fs a hE hF] at h
      exact Except.noConfusion h
    | true =>
      cases hR : (fs a.pdf_path).readResult with
      | permissionError =>
        rw [send_letter_permission fs a hE hF hR] at h
        exact Except.noConfusion h
      | osError m =>
        rw [send_letter_os_error fs a m hE hF hR] at h
        exact Except.noConfusion h
      | ok bytes =>
        rw [send_letter_success fs a bytes hE hF hR] at h
        injection h with h
        subst h
        rw [hasKey_buildPayload]
        cases hl : a.label with
        | none => simp [labelTruthy]
        | some l =>
          simp only [labelTruthy]
          constructor
          · constructor
            · intro hne
              refine ⟨l, rfl, ?_⟩
              intro hempty
              subst hempty
              exact Bool.noConfusion hne
            · rintro ⟨l2, hl2, hne⟩
              injection hl2 with hl2
              subst hl2
              cases hemp : l.isEmpty with
              | false => rfl
              | true =>
                exfalso
                exact hne ((String.isEmpty_iff l).mp hemp)
          · intro hcon
            exact Option.noConfusion hcon

/-- Concrete send arguments with a non-empty label. -/
def labelArgs : SendArgs :=
  { pdf_path := "letter.pdf", name := "Ada", street := "Main St 1",
    zip_code := "10115", city := "Berlin", label := some "gift" }

/-- Claim C6, witness: the theorem applied to a request built with label
`"gift"`; the key is present and witnesses the non-empty label. -/
theorem claim_C6_witness :
    (((buildPayload (base64Encode [1, 2, 3]) labelArgs).hasKey "label" = true) ↔
      ∃ l, labelArgs.label = some l ∧ l ≠ "") ∧
    (labelArgs.label = none →
      (buildPayload (base64Encode [1, 2, 3]) labelArgs).hasKey "label" = false) :=
  claim_C6 presentFS labelArgs
    { method := "POST", path := "/letters"
      body := buildPayload (base64Encode [1, 2, 3]) labelArgs } rfl

/-- Claim C8: the environment variable (when set to a non-empty string)
takes precedence over the secrets file regardless of the file's content;
otherwise the key comes from scanning the file's `VAR=value` lines, where
the value may be unquoted, double-quoted or single-quoted; and when neither
source yields a value the result is the `Local` error whose detail names the
environment variable, the secrets-file path and the signup URL. -/
theorem claim_C8 :
    (∀ (home : String) (env : KeyEnv) (k : String),
      env.envVar = some k → k ≠ "" →
      load_api_key home env = Except.ok (pyStrip k)) ∧
    (∀ (home : String) (lines : List String) (v : String),
      scanLines lines = some v →
      load_api_key home { envVar := none, secretsFile := some lines } = Except.ok v) ∧
    (parseKeyLine (ENV_VAR ++ "=sk-plain") = some "sk-plain" ∧
      parseKeyLine (ENV_VAR ++ "=\"sk-doublequoted\"") = some "sk-doublequoted" ∧
      parseKeyLine ("  " ++ ENV_VAR ++ "=\x27sk-singlequoted\x27  ") = some "sk-singlequoted") ∧
    (∀ (home : String) (env : KeyEnv),
      (env.envVar = none ∨ env.envVar = some "") →
      (env.secretsFile = none ∨ ∃ ls, env.secretsFile = some ls ∧ scanLines ls = none) →
      load_api_key home env = Except.error (noKeyError home)) ∧
    (∀ home : String,
      (noKeyError home).origin = ErrorOrigin.LOCAL ∧
      (noKeyError home).detail = some (Json.str
        ("Set " ++ ENV_VAR ++ " in environment or in " ++ ENV_FILE home ++
          ". Get a key at https://agentic-letters.com/buy"))) := by
  refine ⟨?_, ?_, ?_, ?_, ?_⟩
  · intro home env k hk hne
    have hemp : k.isEmpty = false := by
      cases h : k.isEmpty with
      | false => rfl
      | true => exact absurd ((String.isEmpty_iff k).mp h) hne
    simp [load_api_key, hk, hemp]
  · intro home lines v h
    simp [load_api_key, h]
  · exact ⟨by decide, by decide, by decide⟩
  · intro home env h1 h2
    obtain ⟨ev, sf⟩ := env
    have hemp : ("" : String).isEmpty = true := rfl
    rcases h2 with h2 | ⟨ls, h2, hscan⟩ <;> simp only at h2 <;> subst h2 <;>
      rcases h1 with h1 | h1 <;> simp only at h1 <;> subst h1 <;>
      first
        | simp [load_api_key, hscan, hemp]
        | simp [load_api_key, hemp]
  · intro home
    exact ⟨rfl, rfl⟩

/-- Claim C8, witness: a set environment variable wins over a secrets file
that also contains a key. -/
theorem claim_C8_witness :
    ({ envVar := some " K1 ", secretsFile := some [ENV_VAR ++ "=filekey"] } : KeyEnv).envVar
        = some " K1 " ∧
    " K1 " ≠ "" ∧
    load_api_key "/home/u"
        { envVar := some " K1 ", secretsFile := some [ENV_VAR ++ "=filekey"] } =
      Except.ok (pyStrip " K1 ") :=
  ⟨rfl, by decide, claim_C8.1 "/home/u" _ " K1 " rfl (by decide)⟩

/-- Claim C9: every `Local` error the program can produce — from the
`send_letter` precondition checks or from key resolution, i.e. every error
built by `die_local` — carries no `code`, no `field` and no `http_status`;
and in the request classifier, an error carrying any of those three fields
is a `Server` error (network errors carry only a message and detail). -/
theorem claim_C9 :
    (∀ (fs : String → FileModel) (a : SendArgs) (e : CLIError),
      send_letter fs a = Except.error e →
      e.origin = ErrorOrigin.LOCAL ∧ e.code = none ∧ e.field = none ∧
        e.http_status = none) ∧
    (∀ (home : String) (env : KeyEnv) (e : CLIError),
      load_api_key home env = Except.error e →
      e.origin = ErrorOrigin.LOCAL ∧ e.code = none ∧ e.field = none ∧
        e.http_status = none) ∧
    (∀ (net : HttpOutcome) (e : CLIError),
      handle_response net = ReqResult.err e →
      (e.code ≠ none ∨ e.field ≠ none ∨ e.http_status ≠ none) →
      e.origin = ErrorOrigin.SERVER) := by
  refine ⟨?_, ?_, ?_⟩
  · intro fs a e h
    cases hE : (fs a.pdf_path).pathExists with
    | false =>
      rw [send_letter_not_found fs a hE] at h
      injection h with h
      subst h
      exact ⟨rfl, rfl, rfl, rfl⟩
    | true =>
      cases hF : (fs a.pdf_path).pathIsFile with
      | false =>
        rw [send_letter_not_file fs a hE hF] at h
        injection h with h
        subst h
        exact ⟨rfl, rfl, rfl, rfl⟩
      | true =>
        cases hR : (fs a.pdf_path).readResult with
        | ok bytes =>
          rw [send_letter_success fs a bytes hE hF hR] at h
          exact Except.noConfusion h
        | permissionError =>
          rw [send_letter_permission fs a hE hF hR] at h
          injection h with h
          subst h
          exact ⟨rfl, rfl, rfl, rfl⟩
        | osError m =>
          rw [send_letter_os_error fs a m hE hF hR] at h
          injection h with h
          subst h
          exact ⟨rfl, rfl, rfl, rfl⟩
  · intro home env e h
    unfold load_api_key at h
    repeat' split at h
    all_goals
      first
        | exact Except.noConfusion h
        | (injection h with h; subst h; exact ⟨rfl, rfl, rfl, rfl⟩)
  · intro net e h hpop
    cases net with
    | success b =>
      cases b with
      | none => exact ReqResult.noConfusion h
      | some j => exact ReqResult.noConfusion h
    | httpError c r b =>
      cases b with
      | none =>
        injection h with h
        subst h
        rfl
      | some j =>
        cases j with
        | obj fields =>
          injection h with h
          subst h
          rfl
        | null => exact ReqResult.noConfusion h
        | bool x => exact ReqResult.noConfusion h
        | num x => exact ReqResult.noConfusion h
        | str x => exact ReqResult.noConfusion h
        | arr x => exact ReqResult.noConfusion h
    | urlError r =>
      injection h with h
      subst h
      rcases hpop with hp | hp | hp <;> exact absurd rfl hp
    | timeout =>
      injection h with h
      subst h
      rcases hpop with hp | hp | hp <;> exact absurd rfl hp

/-- Claim C9, witness: the invariant applied to the concrete not-found
`Local` error. -/
theorem claim_C9_witness :
    (localError ("File not found: " ++ missingArgs.pdf_path)).origin = ErrorOrigin.LOCAL ∧
    (localError ("File not found: " ++ missingArgs.pdf_path)).code = none ∧
    (localError ("File not found: " ++ missingArgs.pdf_path)).field = none ∧
    (localError ("File not found: " ++ missingArgs.pdf_path)).http_status = none :=
  claim_C9.1 missingFS missingArgs
    (localError ("File not found: " ++ missingArgs.pdf_path))
    (send_letter_not_found missingFS missingArgs rfl)

/-- Every `exit1` produced by the shared request tail renders a formatted
`CLIError`. -/
lemma finishRequest_exit1 (r : ReqResult) (s : String)
    (h : finishRequest r = ProcOutcome.exit1 s) : ∃ e : CLIError, s = e.format := by
  cases r with
  | ok j => exact ProcOutcome.noConfusion h
  | err e =>
    injection h with h
    exact ⟨e, h.symm⟩
  | crash m => exact ProcOutcome.noConfusion h

/-- Claim C7: for all four operations, a 2xx JSON response is printed to
stdout as `json.dumps(result, indent=2)` of the unmodified response value
(exit code 0, `ProcOutcome.exit0`); any classified error exits with code 1
(`ProcOutcome.exit1`) and its stderr text is the rendered block: the line
`[<origin>] <message>` followed by indented `code` / `http_status` /
`detail` / `field` lines restricted to fields that are present (a rendered
field is always present; a present-but-empty field is also suppressed). -/
theorem claim_C7 :
    (∀ (home : String) (env : KeyEnv) (fs : String → FileModel) (a : SendArgs)
        (k : String) (r : OutRequest) (j : Json),
      load_api_key home env = Except.ok k →
      send_letter fs a = Except.ok r →
      mainSend home env fs a (HttpOutcome.success (some j)) =
        ProcOutcome.exit0 (jsonDumps 0 j)) ∧
    (∀ (home : String) (env : KeyEnv) (k : String) (j : Json),
      load_api_key home env = Except.ok k →
      mainStatus home env (HttpOutcome.success (some j)) =
          ProcOutcome.exit0 (jsonDumps 0 j) ∧
        mainList home env (HttpOutcome.success (some j)) =
          ProcOutcome.exit0 (jsonDumps 0 j) ∧
        mainCredits home env (HttpOutcome.success (some j)) =
          ProcOutcome.exit0 (jsonDumps 0 j)) ∧
    (∀ e : CLIError,
      e.format = String.intercalate "\n"
        (("[" ++ e.origin.value ++ "] " ++ e.message.pyStr) :: optFieldLines e)) ∧
    (∀ e : CLIError,
      (optTruthy e.code = true → e.code.isSome = true) ∧
      (natTruthy e.http_status = true → e.http_status.isSome = true) ∧
      (optTruthy e.detail = true → e.detail.isSome = true) ∧
      (optTruthy e.field = true → e.field.isSome = true)) ∧
    (∀ (home : String) (env : KeyEnv) (fs : String → FileModel) (a : SendArgs)
        (net : HttpOutcome) (s : String),
      mainSend home env fs a net = ProcOutcome.exit1 s → ∃ e : CLIError, s = e.format) ∧
    (∀ (home : String) (env : KeyEnv) (net : HttpOutcome) (s : String),
      (mainStatus home env net = ProcOutcome.exit1 s → ∃ e : CLIError, s = e.format) ∧
      (mainList home env net = ProcOutcome.exit1 s → ∃ e : CLIError, s = e.format) ∧
      (mainCredits home env net = ProcOutcome.exit1 s → ∃ e : CLIError, s = e.format)) := by
  refine ⟨?_, ?_, ?_, ?_, ?_, ?_⟩
  · intro home env fs a k r j hk hs
    simp [mainSend, hk, hs, handle_response, finishRequest]
  · intro home env k j hk
    refine ⟨?_, ?_, ?_⟩ <;> simp [mainStatus, mainList, mainCredits, hk, handle_response,
      finishRequest]
  · intro e
    unfold CLIError.format
    rw [formatParts_eq]
  · intro e
    refine ⟨?_, ?_, ?_, ?_⟩
    · cases h : e.code with
      | none => intro ht; exact Bool.noConfusion ht
      | some j => intro _; rfl
    · cases h : e.http_status with
      | none => intro ht; exact Bool.noConfusion ht
      | some n => intro _; rfl
    · cases h : e.detail with
      | none => intro ht; exact Bool.noConfusion ht
      | some j => intro _; rfl
    · cases h : e.field with
      | none => intro ht; exact Bool.noConfusion ht
      | some j => intro _; rfl
  · intro home env fs a net s h
    unfold mainSend at h
    split at h
    · injection h with h
      exact ⟨_, h.symm⟩
    · split at h
      · injection h with h
        exact ⟨_, h.symm⟩
      · exact finishRequest_exit1 _ _ h
  · intro home env net s
    refine ⟨?_, ?_, ?_⟩ <;> intro h
    · unfold mainStatus at h
      split at h
      · injection h with h
        exact ⟨_, h.symm⟩
      · exact finishRequest_exit1 _ _ h
    · unfold mainList at h
      split at h
      · injection h with h
        exact ⟨_, h.symm⟩
      · exact finishRequest_exit1 _ _ h
    · unfold mainCredits at h
      split at h
      · injection h with h
        exact ⟨_, h.symm⟩
      · exact finishRequest_exit1 _ _ h

/-- Environment with a key set in the environment variable. -/
def goodEnv : KeyEnv := { envVar := some "sk-env", secretsFile := none }

/-- Claim C7, witness: a successful `send` and a successful `status` both
print the indented dump of the exact response object and exit 0. -/
theorem claim_C7_witness :
    mainSend "/home/u" goodEnv presentFS defaultArgs
        (HttpOutcome.success (some (Json.obj [("id", Json.str "L1")]))) =
      ProcOutcome.exit0 (jsonDumps 0 (Json.obj [("id", Json.str "L1")])) ∧
    mainStatus "/home/u" goodEnv
        (HttpOutcome.success (some (Json.obj [("id", Json.str "L1")]))) =
      ProcOutcome.exit0 (jsonDumps 0 (Json.obj [("id", Json.str "L1")])) :=
  ⟨claim_C7.1 "/home/u" goodEnv presentFS defaultArgs (pyStrip "sk-env")
      { method := "POST", path := "/letters"
        body := buildPayload (base64Encode [1, 2, 3]) defaultArgs }
      (Json.obj [("id", Json.str "L1")]) rfl rfl,
    (claim_C7.2.1 "/home/u" goodEnv (pyStrip "sk-env")
      (Json.obj [("id", Json.str "L1")]) rfl).1⟩

/-- Sanity check: the embedded base64 agrees with the RFC 4648 vectors. -/
theorem base64Encode_vectors :
    base64Encode [77, 97, 110] = "TWFu" ∧ base64Encode [77, 97] = "TWE=" ∧
    base64Encode [77] = "TQ==" ∧ base64Encode [] = "" :=
  ⟨rfl, rfl, rfl, rfl⟩

/-- Sanity check: indented dump of a flat object, as `main` prints it. -/
theorem jsonDumps_example :
    jsonDumps 0 (Json.obj [("id", Json.str "L1"), ("cost", Json.num 85)]) =
      "\x7b\n  \"id\": \"L1\",\n  \"cost\": 85\n\x7d" :=
  rfl

/-- Sanity check: the rendered block of a fully-populated server error. -/
theorem format_example :
    CLIError.format
      { origin := ErrorOrigin.SERVER
        message := Json.str "invalid zip"
        code := some (Json.str "validation_error")
        detail := some (Json.str "Must be 5 digits")
        field := some (Json.str "zip")
        http_status := some 422 } =
      "[server] invalid zip\n  code: validation_error\n  http_status: 422\n  detail: Must be 5 digits\n  field: zip" :=
  rfl
